import Mathlib

/-!
Verification of k8s-role-check: binding resolver, pod usage lookup and report
renderer.

A shallow embedding of `cmd/k8s-role-check/main.go` from line 100 on (the
`switch resource` statement, the three `printList` calls, the pod report loop,
`getPodsWithServiceAccount` and `printList`).

Lines 43-98 of `main` (argument parsing, kubeconfig discovery, client
construction) only produce the values `resource`, `rolename` and the client;
they are the parameters of `main` below.  The client is a `Cluster`: what each
`List` request of the program returns, the pod listings request by request.

Standard output is a sequence of `Line` values, one per executed `fmt.Printf`
or `fmt.Println` call; `Line.render` is the text of the call and `stdout` the
concatenation.  Package-level variables of the Go program are the fields of
`State`.  A Go `panic` ends the run with the state reached so far and the
panic message.
-/

set_option maxRecDepth 100000

namespace K8sRoleCheck

/-! ## Data model -/

/-- The type `rbac.Subject`. -/
structure Subject where
  Kind : String
  APIGroup : String
  Name : String
  Namespace : String
deriving DecidableEq, Repr

/-- The type `rbac.RoleRef`. -/
structure RoleRef where
  APIGroup : String
  Kind : String
  Name : String
deriving DecidableEq, Repr

/-- The fields of `rbac.RoleBinding` and of `rbac.ClusterRoleBinding` that the
program reads: `ObjectMeta.Namespace`, `ObjectMeta.Name`, `Subjects`, `RoleRef`.
The two Go types have the same shape. -/
structure Binding where
  Namespace : String
  Name : String
  Subjects : List Subject
  RoleRef : RoleRef
deriving DecidableEq, Repr

/-- The fields of `corev1.Pod` that the program reads: `ObjectMeta.Name`,
`ObjectMeta.Namespace`, `Spec.ServiceAccountName`. -/
structure Pod where
  Name : String
  Namespace : String
  ServiceAccountName : String
deriving DecidableEq, Repr

/-- What the API client returns: `RbacV1().RoleBindings("").List`,
`RbacV1().ClusterRoleBindings().List` and, per namespace,
`CoreV1().Pods(ns).List`; each is the `Items` of the list or an error. The
program lists the bindings at most once and the pods once per collected
subject: `pods n ns` is the answer to the pod listing of namespace `ns` made as
request number `n` of the run (counted from 0), so two listings of one
namespace need not agree. -/
structure Cluster where
  roleBindings : Except String (List Binding)
  clusterRoleBindings : Except String (List Binding)
  pods : Nat → String → Except String (List Pod)

/-- An API request made by the program. -/
inductive Call where
  | listRoleBindings
  | listClusterRoleBindings
  | listPods (ns : String)
deriving DecidableEq, Repr

/-- One executed print call, named after its place in the source. -/
inductive Line where
  /-- Line 105. -/
  | roleBindingsHeader (rolename : String)
  /-- Line 131. -/
  | clusterRoleBindingsHeader (rolename : String)
  /-- Lines 112 and 134. -/
  | binding (ns name : String)
  /-- Lines 149 and 154, `fmt.Println("")`. -/
  | blank
  /-- Line 192. -/
  | listHeader (kind resource rolename : String)
  /-- Line 195. -/
  | subjectMid (name ns : String)
  /-- Line 197. -/
  | subjectLast (name ns : String)
  /-- Line 155. -/
  | podsHeader
  /-- Line 159. -/
  | podFail (name : String)
  /-- Line 164. -/
  | saHeader (name ns : String)
  /-- Line 167. -/
  | podMid (name : String)
  /-- Line 169. -/
  | podLast (name : String)
deriving DecidableEq, Repr

/-- The verb `%-25s`: the string, then blanks up to a width of 25 characters;
a longer string is printed whole. -/
def padRight25 (s : String) : String :=
  s ++ String.mk (List.replicate (25 - s.length) ' ')

/-- The text written by each print call. -/
def Line.render : Line → String
  | .roleBindingsHeader rolename => "RoleBindings for " ++ rolename ++ ":\n"
  | .clusterRoleBindingsHeader rolename => "ClusterRoleBindings for " ++ rolename ++ ":\n"
  | .binding ns name => "  ├─ " ++ padRight25 ns ++ " - " ++ name ++ "\n"
  | .blank => "\n"
  | .listHeader kind resource rolename =>
      kind ++ " bound to " ++ resource ++ ": " ++ rolename ++ "\n"
  | .subjectMid name ns => "  ├─ " ++ padRight25 name ++ " (" ++ ns ++ ")\n"
  | .subjectLast name ns => "  └─ " ++ padRight25 name ++ " (" ++ ns ++ ")\n\n"
  | .podsHeader => "Pods which use the SA from above:\n"
  | .podFail name => "Failed to get pods with service account '" ++ name ++ "'"
  | .saHeader name ns => "ServiceAccount: " ++ name ++ " - Namespace: " ++ ns ++ "\n"
  | .podMid name => "  ├─ " ++ name ++ "\n"
  | .podLast name => "  └─ " ++ name ++ "\n\n"

/-- The bytes on standard output. -/
def stdout (out : List Line) : String :=
  String.join (out.map Line.render)

/-- Is the line a binding line (lines 112, 134)? -/
def Line.isBinding : Line → Bool
  | .binding _ _ => true
  | _ => false

/-- Is the line an entry or header of a `printList` listing? -/
def Line.isSubjectListing : Line → Bool
  | .listHeader _ _ _ => true
  | .subjectMid _ _ => true
  | .subjectLast _ _ => true
  | _ => false

/-- Is the line part of a pod block (header or pod entry)? -/
def Line.isPodBlock : Line → Bool
  | .saHeader _ _ => true
  | .podMid _ => true
  | .podLast _ => true
  | _ => false

/-- The pod name shown by a pod entry line. -/
def Line.podName : Line → Option String
  | .podMid name => some name
  | .podLast name => some name
  | _ => none

/-- The line with the namespace column of a binding line blanked. -/
def Line.eraseBindingNamespace : Line → Line
  | .binding _ name => .binding "" name
  | l => l

/-- The package-level variables the program writes, the output so far and the
API requests made so far. -/
structure State where
  out : List Line
  calls : List Call
  serviceAccountsInUse : List Subject
  groupsInUse : List Subject
  usersInUse : List Subject
  podsInUse : List Pod
deriving DecidableEq, Repr

/-- The state at program start: every slice is nil, nothing printed. -/
def State.initial : State :=
  { out := [], calls := [], serviceAccountsInUse := [], groupsInUse := [],
    usersInUse := [], podsInUse := [] }

/-- Append one print call to the output. -/
def State.emit (st : State) (l : Line) : State :=
  { st with out := st.out ++ [l] }

/-- Append several print calls to the output. -/
def State.emitAll (st : State) (ls : List Line) : State :=
  { st with out := st.out ++ ls }

/-- Record an API request. -/
def State.call (st : State) (c : Call) : State :=
  { st with calls := st.calls ++ [c] }

/-! ## Binding resolver (lines 103-148) -/

/-- The `switch sub.Kind` of lines 114-121 and 136-143. -/
def classify (st : State) (sub : Subject) : State :=
  if sub.Kind = "ServiceAccount" then
    { st with serviceAccountsInUse := st.serviceAccountsInUse ++ [sub] }
  else if sub.Kind = "User" then
    { st with usersInUse := st.usersInUse ++ [sub] }
  else if sub.Kind = "Group" then
    { st with groupsInUse := st.groupsInUse ++ [sub] }
  else st

/-- The body of the loop over `bindings.Items` (lines 111-123, 133-145). -/
def bindingStep (rolename : String) (st : State) (binding : Binding) : State :=
  if binding.RoleRef.Name = rolename then
    binding.Subjects.foldl classify (st.emit (.binding binding.Namespace binding.Name))
  else st

/-- The `switch resource` statement of lines 103-148: the state reached and
the panic message, if the listing failed. -/
def resolve (c : Cluster) (resource rolename : String) (st : State) :
    State × Option String :=
  if resource = "role" then
    let st1 := (st.emit (.roleBindingsHeader rolename)).call .listRoleBindings
    match c.roleBindings with
    | .error e => (st1, some e)
    | .ok items => (items.foldl (bindingStep rolename) st1, none)
  else if resource = "clusterrole" then
    let st1 := st.call .listClusterRoleBindings
    match c.clusterRoleBindings with
    | .error e => (st1, some e)
    | .ok items =>
        (items.foldl (bindingStep rolename) (st1.emit (.clusterRoleBindingsHeader rolename)),
          none)
  else (st, none)

/-! ## Report renderer (lines 190-201) -/

/-- The function `printList`; `resource` and `rolename` are the globals it reads. -/
def printList (resource rolename kind : String) (subs : List Subject) : List Line :=
  if subs.length > 0 then
    Line.listHeader kind resource rolename ::
      subs.enum.map (fun p =>
        if p.1 < subs.length - 1 then Line.subjectMid p.2.Name p.2.Namespace
        else Line.subjectLast p.2.Name p.2.Namespace)
  else []

/-! ## Pod usage lookup (lines 156-188) -/

/-- The method `getPodsWithServiceAccount`: the error returned, if any, and the
state with the matching pods appended to `podsInUse`. -/
def getPodsWithServiceAccount (c : Cluster) (st : State) (sub : Subject) :
    Option String × State :=
  let st1 := st.call (.listPods sub.Namespace)
  match c.pods st.calls.length sub.Namespace with
  | .error e => (some e, st1)
  | .ok items =>
      (none, items.foldl (fun s pod =>
        if pod.ServiceAccountName = sub.Name then
          { s with podsInUse := s.podsInUse ++ [pod] }
        else s) st1)

/-- The pod entries printed by the loop of lines 165-171. -/
def podLines (pods : List Pod) : List Line :=
  pods.enum.map (fun p =>
    if p.1 < pods.length - 1 then Line.podMid p.2.Name else Line.podLast p.2.Name)

/-- The body of the loop over `serviceAccountsInUse` (lines 157-172). -/
def podStep (c : Cluster) (st : State) (sa : Subject) : State :=
  let r := getPodsWithServiceAccount c st sa
  let st1 := match r.1 with
    | some _ => r.2.emit (.podFail sa.Name)
    | none => r.2
  if st1.podsInUse.length = 0 then st1
  else
    { (st1.emitAll (Line.saHeader sa.Name sa.Namespace :: podLines st1.podsInUse)) with
      podsInUse := [] }

/-- Lines 149-155: the blank line, the three listings, the blank line and the
header of the pod report. -/
def printSubjects (resource rolename : String) (st : State) : State :=
  (((((st.emit .blank).emitAll (printList resource rolename "ServiceAccounts"
    st.serviceAccountsInUse)).emitAll (printList resource rolename "Users"
    st.usersInUse)).emitAll (printList resource rolename "Groups"
    st.groupsInUse)).emit .blank).emit .podsHeader

/-- Lines 149-174. -/
def report (c : Cluster) (resource rolename : String) (st : State) : State :=
  let st1 := printSubjects resource rolename st
  st1.serviceAccountsInUse.foldl (podStep c) st1

/-- The result of a run: the final state and the panic message, if any. -/
structure Outcome where
  st : State
  panicked : Option String
deriving DecidableEq, Repr

/-- The function `main` from line 100 on. -/
def main (c : Cluster) (resource rolename : String) : Outcome :=
  match resolve c resource rolename State.initial with
  | (st, some e) => { st := st, panicked := some e }
  | (st, none) => { st := report c resource rolename st, panicked := none }

/-! ## Vocabulary of the statements -/

/-- The bindings whose role reference name is the given name, in order. -/
def matching (rolename : String) (items : List Binding) : List Binding :=
  items.filter (fun b => decide (b.RoleRef.Name = rolename))

/-- Every subject of the given bindings, binding by binding, in order. -/
def subjectsOf (items : List Binding) : List Subject :=
  items.flatMap Binding.Subjects

/-- The subjects of the given kind, in order. -/
def ofKind (kind : String) (subs : List Subject) : List Subject :=
  subs.filter (fun s => decide (s.Kind = kind))

/-- The pods whose declared service account name is the name of the subject,
in order. -/
def podsUsing (sa : Subject) (items : List Pod) : List Pod :=
  items.filter (fun p => decide (p.ServiceAccountName = sa.Name))

/-- The lines printed between two states of one run. -/
def printedBetween (before after : State) : List Line :=
  after.out.drop before.out.length

/-- The requests made between two states of one run. -/
def calledBetween (before after : State) : List Call :=
  after.calls.drop before.calls.length

/-- The state in which the pod report loop of line 156 starts. -/
def loopStart (c : Cluster) (resource rolename : String) : State :=
  printSubjects resource rolename (resolve c resource rolename State.initial).1

/-- What one iteration of the pod report loop prints when it starts with an
empty `podsInUse` and its pod listing is request number `n`. -/
def saBlock (c : Cluster) (n : Nat) (sa : Subject) : List Line :=
  match c.pods n sa.Namespace with
  | .error _ => [Line.podFail sa.Name]
  | .ok items =>
      if podsUsing sa items = [] then []
      else Line.saHeader sa.Name sa.Namespace :: podLines (podsUsing sa items)

/-- What the iterations for the given subjects print, one after the other,
when the first of their pod listings is request number `n`. -/
def blocks (c : Cluster) : Nat → List Subject → List Line
  | _, [] => []
  | n, sa :: rest => saBlock c n sa ++ blocks c (n + 1) rest

/-- The state in which the iteration of the pod report loop that follows the
subjects `pre` starts. -/
def iterStart (c : Cluster) (resource rolename : String) (pre : List Subject) : State :=
  pre.foldl (podStep c) (loopStart c resource rolename)

/-- The three collections of a state are the subjects, by kind and in order,
of the bindings of `items` that reference `rolename`; nothing is merged. -/
def CollectedFrom (items : List Binding) (rolename : String) (st : State) : Prop :=
  st.serviceAccountsInUse =
      ((items.filter (fun b => decide (b.RoleRef.Name = rolename))).flatMap
        Binding.Subjects).filter (fun s => decide (s.Kind = "ServiceAccount")) ∧
  st.usersInUse =
      ((items.filter (fun b => decide (b.RoleRef.Name = rolename))).flatMap
        Binding.Subjects).filter (fun s => decide (s.Kind = "User")) ∧
  st.groupsInUse =
      ((items.filter (fun b => decide (b.RoleRef.Name = rolename))).flatMap
        Binding.Subjects).filter (fun s => decide (s.Kind = "Group")) ∧
  ∀ s : Subject,
    (s.Kind = "ServiceAccount" → st.serviceAccountsInUse.count s =
      ((items.filter (fun b => decide (b.RoleRef.Name = rolename))).flatMap
        Binding.Subjects).count s) ∧
    (s.Kind = "User" → st.usersInUse.count s =
      ((items.filter (fun b => decide (b.RoleRef.Name = rolename))).flatMap
        Binding.Subjects).count s) ∧
    (s.Kind = "Group" → st.groupsInUse.count s =
      ((items.filter (fun b => decide (b.RoleRef.Name = rolename))).flatMap
        Binding.Subjects).count s)

/-- Two bindings that agree in name, role reference name and subjects; they may
differ in namespace and in the kind and API group of the role reference. -/
def SameUpToRefKind (b b' : Binding) : Prop :=
  b.Name = b'.Name ∧ b.RoleRef.Name = b'.RoleRef.Name ∧ b.Subjects = b'.Subjects

/-! ## Concrete clusters -/

/-- The subject of the example scenario. -/
def deployer : Subject :=
  { Kind := "ServiceAccount", APIGroup := "", Name := "deployer", Namespace := "team-a" }

/-- A second service account of namespace `team-a`. -/
def builder : Subject :=
  { Kind := "ServiceAccount", APIGroup := "", Name := "builder", Namespace := "team-a" }

/-- The pods of namespace `team-a`: two run under `deployer`, one under
`builder`. -/
def teamPods : List Pod :=
  [{ Name := "web-0", Namespace := "team-a", ServiceAccountName := "deployer" },
   { Name := "job-0", Namespace := "team-a", ServiceAccountName := "builder" },
   { Name := "web-1", Namespace := "team-a", ServiceAccountName := "deployer" }]

/-- A cluster in which a RoleBinding and a ClusterRoleBinding reference
`editor` and a pod runs under the bound service account. -/
def sampleCluster : Cluster :=
  { roleBindings := .ok
      [{ Namespace := "team-a", Name := "alice-binding",
         Subjects := [{ Kind := "ServiceAccount", APIGroup := "", Name := "deployer",
                        Namespace := "team-a" }],
         RoleRef := { APIGroup := "rbac.authorization.k8s.io", Kind := "Role",
                      Name := "editor" } }]
    clusterRoleBindings := .ok
      [{ Namespace := "", Name := "editors",
         Subjects := [{ Kind := "User", APIGroup := "rbac.authorization.k8s.io",
                        Name := "bob", Namespace := "" }],
         RoleRef := { APIGroup := "rbac.authorization.k8s.io", Kind := "ClusterRole",
                      Name := "editor" } }]
    pods := fun _ ns =>
      if ns = "team-a" then
        .ok [{ Name := "web-0", Namespace := "team-a", ServiceAccountName := "deployer" }]
      else .ok [] }

/-- The cluster of the example scenario: one RoleBinding `alice-binding` in
`team-a` that references `editor` and binds the service account `deployer`,
and one pod in `team-a`, of the given name, that runs under `deployer`. -/
def scenario (podName : String) : Cluster :=
  { roleBindings := .ok
      [{ Namespace := "team-a", Name := "alice-binding", Subjects := [deployer],
         RoleRef := { APIGroup := "rbac.authorization.k8s.io", Kind := "Role",
                      Name := "editor" } }]
    clusterRoleBindings := .ok []
    pods := fun _ ns =>
      if ns = "team-a" then
        .ok [{ Name := podName, Namespace := "team-a", ServiceAccountName := "deployer" }]
      else .ok [] }

/-- A cluster whose RoleBinding for `editor` binds `deployer` and `builder`. -/
def twoAccounts : Cluster :=
  { roleBindings := .ok
      [{ Namespace := "team-a", Name := "ci-binding", Subjects := [deployer, builder],
         RoleRef := { APIGroup := "rbac.authorization.k8s.io", Kind := "Role",
                      Name := "editor" } }]
    clusterRoleBindings := .ok []
    pods := fun _ ns => if ns = "team-a" then .ok teamPods else .ok [] }

/-- A cluster whose RoleBinding for `editor` binds `builder` and `deployer`,
both of namespace `team-a`. Request 0 lists the bindings; request 1, the pod
listing for `builder`, times out; every other pod listing of `team-a`
succeeds. -/
def flakyCluster : Cluster :=
  { roleBindings := .ok
      [{ Namespace := "team-a", Name := "ci-binding", Subjects := [builder, deployer],
         RoleRef := { APIGroup := "rbac.authorization.k8s.io", Kind := "Role",
                      Name := "editor" } }]
    clusterRoleBindings := .ok []
    pods := fun n ns =>
      if n = 1 then .error "context deadline exceeded"
      else if ns = "team-a" then .ok teamPods
      else .ok [] }

/-- A RoleBinding of namespace `team-a` that references the Role `editor`. -/
def aliceViaRole : Binding :=
  { Namespace := "team-a", Name := "alice-binding", Subjects := [deployer],
    RoleRef := { APIGroup := "rbac.authorization.k8s.io", Kind := "Role", Name := "editor" } }

/-- The same binding in namespace `team-b`, referencing the ClusterRole
`editor`. -/
def aliceViaClusterRole : Binding :=
  { Namespace := "team-b", Name := "alice-binding", Subjects := [deployer],
    RoleRef := { APIGroup := "rbac.authorization.k8s.io", Kind := "ClusterRole",
                 Name := "editor" } }

/-! ## The resolver loop -/

theorem foldl_classify (subs : List Subject) (st : State) :
    subs.foldl classify st =
      { st with
        serviceAccountsInUse := st.serviceAccountsInUse ++ ofKind "ServiceAccount" subs
        usersInUse := st.usersInUse ++ ofKind "User" subs
        groupsInUse := st.groupsInUse ++ ofKind "Group" subs } := by
  induction subs generalizing st with
  | nil => simp [ofKind]
  | cons s rest ih =>
    rw [List.foldl_cons, ih]
    unfold classify ofKind
    by_cases h1 : s.Kind = "ServiceAccount"
    · simp [h1]
    · by_cases h2 : s.Kind = "User"
      · simp [h2]
      · by_cases h3 : s.Kind = "Group"
        · simp [h3]
        · simp [h1, h2, h3]

theorem foldl_bindingStep (rolename : String) (items : List Binding) (st : State) :
    items.foldl (bindingStep rolename) st =
      { st with
        out := st.out ++ (matching rolename items).map (fun b => Line.binding b.Namespace b.Name)
        serviceAccountsInUse :=
          st.serviceAccountsInUse ++ ofKind "ServiceAccount" (subjectsOf (matching rolename items))
        usersInUse := st.usersInUse ++ ofKind "User" (subjectsOf (matching rolename items))
        groupsInUse :=
          st.groupsInUse ++ ofKind "Group" (subjectsOf (matching rolename items)) } := by
  induction items generalizing st with
  | nil => simp [matching, subjectsOf, ofKind]
  | cons b rest ih =>
    rw [List.foldl_cons, ih]
    unfold bindingStep matching
    by_cases h : b.RoleRef.Name = rolename
    · simp [h, foldl_classify, State.emit, subjectsOf, ofKind]
    · simp [h]

theorem resolve_role (c : Cluster) (rolename : String) (items : List Binding)
    (h : c.roleBindings = .ok items) :
    resolve c "role" rolename State.initial =
      ({ out := Line.roleBindingsHeader rolename ::
            (matching rolename items).map (fun b => Line.binding b.Namespace b.Name)
         calls := [Call.listRoleBindings]
         serviceAccountsInUse := ofKind "ServiceAccount" (subjectsOf (matching rolename items))
         groupsInUse := ofKind "Group" (subjectsOf (matching rolename items))
         usersInUse := ofKind "User" (subjectsOf (matching rolename items))
         podsInUse := [] }, none) := by
  simp [resolve, h, foldl_bindingStep, State.initial, State.emit, State.call]

theorem resolve_clusterrole (c : Cluster) (rolename : String) (items : List Binding)
    (h : c.clusterRoleBindings = .ok items) :
    resolve c "clusterrole" rolename State.initial =
      ({ out := Line.clusterRoleBindingsHeader rolename ::
            (matching rolename items).map (fun b => Line.binding b.Namespace b.Name)
         calls := [Call.listClusterRoleBindings]
         serviceAccountsInUse := ofKind "ServiceAccount" (subjectsOf (matching rolename items))
         groupsInUse := ofKind "Group" (subjectsOf (matching rolename items))
         usersInUse := ofKind "User" (subjectsOf (matching rolename items))
         podsInUse := [] }, none) := by
  simp [resolve, h, foldl_bindingStep, State.initial, State.emit, State.call]

theorem resolve_other (c : Cluster) (resource rolename : String)
    (h1 : resource ≠ "role") (h2 : resource ≠ "clusterrole") :
    resolve c resource rolename State.initial = (State.initial, none) := by
  simp [resolve, h1, h2]

/-- Whatever the inputs, the three collections after the resolver are the
subjects, by kind, of the matching bindings of some list (the listing, or
nothing), and `podsInUse` is untouched. -/
theorem resolve_collections (c : Cluster) (resource rolename : String) :
    ∃ items : List Binding,
      (resolve c resource rolename State.initial).1.serviceAccountsInUse =
          ofKind "ServiceAccount" (subjectsOf (matching rolename items)) ∧
      (resolve c resource rolename State.initial).1.usersInUse =
          ofKind "User" (subjectsOf (matching rolename items)) ∧
      (resolve c resource rolename State.initial).1.groupsInUse =
          ofKind "Group" (subjectsOf (matching rolename items)) ∧
      (resolve c resource rolename State.initial).1.podsInUse = [] := by
  by_cases h1 : resource = "role"
  · subst h1
    cases h : c.roleBindings with
    | error e =>
      exact ⟨[], by simp [resolve, h, State.initial, State.emit, State.call, matching,
        subjectsOf, ofKind]⟩
    | ok items => exact ⟨items, by simp [resolve_role c rolename items h]⟩
  · by_cases h2 : resource = "clusterrole"
    · subst h2
      cases h : c.clusterRoleBindings with
      | error e =>
        exact ⟨[], by simp [resolve, h, State.initial, State.emit, State.call, matching,
          subjectsOf, ofKind]⟩
      | ok items => exact ⟨items, by simp [resolve_clusterrole c rolename items h]⟩
    · refine ⟨[], ?_⟩
      rw [resolve_other c resource rolename h1 h2]
      simp [State.initial, matching, subjectsOf, ofKind]

/-! ## The tree listings -/

theorem enumFrom_branch {α β : Type} (f g : α → β) (rest : List α) (a : α) (k n : Nat)
    (hn : n = k + rest.length + 1) :
    ((rest ++ [a]).enumFrom k).map (fun p => if p.1 < n - 1 then f p.2 else g p.2)
      = rest.map f ++ [g a] := by
  induction rest generalizing k with
  | nil => simp [List.enumFrom, hn]
  | cons b rest ih =>
    have h1 : k < n - 1 := by simp [hn]
    simp only [List.cons_append, List.enumFrom_cons, List.map_cons, h1, if_true]
    rw [ih (k + 1) (by simp [hn]; omega)]

theorem printList_nil (resource rolename kind : String) :
    printList resource rolename kind [] = [] := by
  simp [printList]

theorem printList_concat (resource rolename kind : String) (rest : List Subject)
    (s : Subject) :
    printList resource rolename kind (rest ++ [s]) =
      Line.listHeader kind resource rolename ::
        (rest.map (fun x => Line.subjectMid x.Name x.Namespace) ++
          [Line.subjectLast s.Name s.Namespace]) := by
  unfold printList
  have hpos : (rest ++ [s]).length > 0 := by simp
  rw [if_pos hpos]
  unfold List.enum
  rw [enumFrom_branch (fun x => Line.subjectMid x.Name x.Namespace)
    (fun x => Line.subjectLast x.Name x.Namespace) rest s 0 (rest ++ [s]).length (by simp)]

theorem podLines_nil : podLines [] = [] := by
  simp [podLines]

theorem podLines_concat (rest : List Pod) (p : Pod) :
    podLines (rest ++ [p]) = rest.map (fun x => Line.podMid x.Name) ++ [Line.podLast p.Name] := by
  unfold podLines List.enum
  rw [enumFrom_branch (fun x => Line.podMid x.Name) (fun x => Line.podLast x.Name) rest p 0
    (rest ++ [p]).length (by simp)]

theorem podLines_podName (pods : List Pod) :
    (podLines pods).filterMap Line.podName = pods.map Pod.Name := by
  rcases List.eq_nil_or_concat pods with h | ⟨rest, p, h⟩
  · subst h; simp [podLines_nil]
  · subst h
    rw [List.concat_eq_append, podLines_concat]
    simp only [List.filterMap_append, List.filterMap_map, Line.podName, Function.comp_def,
      List.map_append, List.filterMap_cons, List.filterMap_nil, List.map_cons, List.map_nil]
    congr 1
    induction rest with
    | nil => rfl
    | cons a r ih => simp [List.filterMap_cons, ih]

theorem podLines_isPodBlock (pods : List Pod) :
    ∀ l ∈ podLines pods, l.isPodBlock = true ∧ l.isBinding = false ∧
      l.isSubjectListing = false := by
  intro l hl
  unfold podLines at hl
  rw [List.mem_map] at hl
  obtain ⟨p, _, rfl⟩ := hl
  by_cases h : p.1 < pods.length - 1 <;> simp [h, Line.isPodBlock, Line.isBinding,
    Line.isSubjectListing]

theorem printList_isSubjectListing (resource rolename kind : String) (subs : List Subject) :
    ∀ l ∈ printList resource rolename kind subs, l.isSubjectListing = true ∧
      l.isBinding = false ∧ l.isPodBlock = false := by
  intro l hl
  unfold printList at hl
  by_cases hpos : subs.length > 0
  · rw [if_pos hpos, List.mem_cons, List.mem_map] at hl
    rcases hl with rfl | ⟨p, _, rfl⟩
    · simp [Line.isSubjectListing, Line.isBinding, Line.isPodBlock]
    · by_cases h : p.1 < subs.length - 1 <;> simp [h, Line.isSubjectListing, Line.isBinding,
        Line.isPodBlock]
  · rw [if_neg hpos] at hl
    simp at hl

theorem saBlock_not_binding (c : Cluster) (n : Nat) (sa : Subject) :
    ∀ l ∈ saBlock c n sa, l.isBinding = false ∧ l.isSubjectListing = false := by
  intro l hl
  unfold saBlock at hl
  cases h : c.pods n sa.Namespace with
  | error e =>
    simp only [h, List.mem_singleton] at hl
    subst hl
    simp [Line.isBinding, Line.isSubjectListing]
  | ok items =>
    simp only [h] at hl
    by_cases hm : podsUsing sa items = []
    · simp [hm] at hl
    · rw [if_neg hm, List.mem_cons] at hl
      rcases hl with rfl | hl
      · simp [Line.isBinding, Line.isSubjectListing]
      · exact (podLines_isPodBlock _ l hl).2

/-! ## The pod report loop -/

theorem foldl_collect (sub : Subject) (items : List Pod) (st : State) :
    items.foldl (fun s pod =>
        if pod.ServiceAccountName = sub.Name then
          { s with podsInUse := s.podsInUse ++ [pod] }
        else s) st =
      { st with podsInUse := st.podsInUse ++ podsUsing sub items } := by
  induction items generalizing st with
  | nil => simp [podsUsing]
  | cons p rest ih =>
    rw [List.foldl_cons, ih]
    unfold podsUsing
    by_cases h : p.ServiceAccountName = sub.Name
    · simp [h]
    · simp [h]

theorem blocks_not_binding (c : Cluster) (n : Nat) (sas : List Subject) :
    ∀ l ∈ blocks c n sas, l.isBinding = false ∧ l.isSubjectListing = false := by
  induction sas generalizing n with
  | nil => intro l hl; simp [blocks] at hl
  | cons sa rest ih =>
    intro l hl
    rw [blocks, List.mem_append] at hl
    rcases hl with hl | hl
    · exact saBlock_not_binding c n sa l hl
    · exact ih (n + 1) l hl

/-- The iterations for `sas` from request number `n` on print the same under
two clusters that answer the pod listings number `n` to `n + sas.length - 1`
alike. -/
theorem blocks_congr (c c' : Cluster) (n : Nat) (sas : List Subject)
    (h : ∀ m ns, n ≤ m → m < n + sas.length → c'.pods m ns = c.pods m ns) :
    blocks c' n sas = blocks c n sas := by
  induction sas generalizing n with
  | nil => rfl
  | cons sa rest ih =>
    have h0 : c'.pods n sa.Namespace = c.pods n sa.Namespace :=
      h n sa.Namespace (Nat.le_refl n) (by simp)
    have hr : blocks c' (n + 1) rest = blocks c (n + 1) rest :=
      ih (n + 1) (fun m ns h1 h2 => h m ns (by omega) (by simp; omega))
    simp only [blocks, saBlock, h0, hr]

theorem podStep_eq (c : Cluster) (st : State) (sa : Subject) (h : st.podsInUse = []) :
    podStep c st sa =
      { st with
        out := st.out ++ saBlock c st.calls.length sa
        calls := st.calls ++ [Call.listPods sa.Namespace] } := by
  unfold podStep getPodsWithServiceAccount saBlock
  cases hp : c.pods st.calls.length sa.Namespace with
  | error e => simp [State.emit, State.call, h]
  | ok items =>
    simp only [foldl_collect, State.call, h, List.nil_append]
    by_cases hm : podsUsing sa items = []
    · simp [hm, h]
    · have hlen : ¬ (podsUsing sa items).length = 0 := by
        simpa [List.length_eq_zero] using hm
      simp [hm, hlen, State.emitAll]

theorem podLoop_eq (c : Cluster) (sas : List Subject) (st : State) (h : st.podsInUse = []) :
    sas.foldl (podStep c) st =
      { st with
        out := st.out ++ blocks c st.calls.length sas
        calls := st.calls ++ sas.map (fun sa => Call.listPods sa.Namespace) } := by
  induction sas generalizing st with
  | nil => simp [blocks]
  | cons sa rest ih =>
    rw [List.foldl_cons, podStep_eq c st sa h, ih _ (by simpa using h)]
    simp [blocks]

theorem loopStart_fields (c : Cluster) (resource rolename : String) :
    (loopStart c resource rolename).podsInUse = [] ∧
    (loopStart c resource rolename).serviceAccountsInUse =
      (resolve c resource rolename State.initial).1.serviceAccountsInUse ∧
    (loopStart c resource rolename).usersInUse =
      (resolve c resource rolename State.initial).1.usersInUse ∧
    (loopStart c resource rolename).groupsInUse =
      (resolve c resource rolename State.initial).1.groupsInUse := by
  obtain ⟨_, _, _, _, hp⟩ := resolve_collections c resource rolename
  simp [loopStart, printSubjects, State.emit, State.emitAll, hp]

theorem loopStart_calls (c : Cluster) (resource rolename : String) :
    (loopStart c resource rolename).calls =
      (resolve c resource rolename State.initial).1.calls := by
  simp [loopStart, printSubjects, State.emit, State.emitAll]

theorem main_of_resolve (c : Cluster) (resource rolename : String)
    (h : (resolve c resource rolename State.initial).2 = none) :
    main c resource rolename =
      { st := (loopStart c resource rolename).serviceAccountsInUse.foldl (podStep c)
          (loopStart c resource rolename)
        panicked := none } := by
  unfold main
  cases hr : resolve c resource rolename State.initial with
  | mk st e =>
    rw [hr] at h
    simp only at h
    subst h
    simp [report, loopStart, hr]

/-- The state reached just before iteration number `pre.length` of the pod
report loop has an empty `podsInUse`. -/
theorem loop_invariant (c : Cluster) (resource rolename : String) (pre : List Subject) :
    (pre.foldl (podStep c) (loopStart c resource rolename)).podsInUse = [] := by
  rw [podLoop_eq c pre _ (loopStart_fields c resource rolename).1]
  exact (loopStart_fields c resource rolename).1

/-! ## The whole run -/

theorem main_collections (c : Cluster) (resource rolename : String) :
    (main c resource rolename).st.serviceAccountsInUse =
      (resolve c resource rolename State.initial).1.serviceAccountsInUse ∧
    (main c resource rolename).st.usersInUse =
      (resolve c resource rolename State.initial).1.usersInUse ∧
    (main c resource rolename).st.groupsInUse =
      (resolve c resource rolename State.initial).1.groupsInUse := by
  cases hr : (resolve c resource rolename State.initial).2 with
  | none =>
    rw [main_of_resolve c resource rolename hr,
      podLoop_eq c _ _ (loopStart_fields c resource rolename).1]
    obtain ⟨_, h1, h2, h3⟩ := loopStart_fields c resource rolename
    exact ⟨h1, h2, h3⟩
  | some e =>
    unfold main
    cases hq : resolve c resource rolename State.initial with
    | mk st o =>
      rw [hq] at hr
      simp only at hr
      subst hr
      simp

theorem main_out (c : Cluster) (resource rolename : String)
    (h : (resolve c resource rolename State.initial).2 = none) :
    (main c resource rolename).st.out =
      (resolve c resource rolename State.initial).1.out ++
        (Line.blank ::
          (printList resource rolename "ServiceAccounts"
              (resolve c resource rolename State.initial).1.serviceAccountsInUse ++
            (printList resource rolename "Users"
                (resolve c resource rolename State.initial).1.usersInUse ++
              (printList resource rolename "Groups"
                  (resolve c resource rolename State.initial).1.groupsInUse ++
                (Line.blank :: Line.podsHeader ::
                  blocks c (resolve c resource rolename State.initial).1.calls.length
                    (resolve c resource rolename State.initial).1.serviceAccountsInUse))))) := by
  rw [main_of_resolve c resource rolename h,
    podLoop_eq c _ _ (loopStart_fields c resource rolename).1, loopStart_calls]
  simp [loopStart, printSubjects, State.emit, State.emitAll]

theorem filter_isBinding_printList (resource rolename kind : String) (subs : List Subject) :
    (printList resource rolename kind subs).filter Line.isBinding = [] := by
  rw [List.filter_eq_nil_iff]
  intro l hl
  simp [(printList_isSubjectListing resource rolename kind subs l hl).2.1]

theorem filter_isBinding_blocks (c : Cluster) (n : Nat) (sas : List Subject) :
    (blocks c n sas).filter Line.isBinding = [] := by
  rw [List.filter_eq_nil_iff]
  intro l hl
  simp [(blocks_not_binding c n sas l hl).1]

theorem filter_isBinding_map (items : List Binding) :
    (items.map (fun b => Line.binding b.Namespace b.Name)).filter Line.isBinding =
      items.map (fun b => Line.binding b.Namespace b.Name) := by
  rw [List.filter_eq_self]
  intro l hl
  rw [List.mem_map] at hl
  obtain ⟨b, _, rfl⟩ := hl
  rfl

theorem collectedFrom_of_eq (items : List Binding) (rolename : String) (st : State)
    (h1 : st.serviceAccountsInUse = ofKind "ServiceAccount" (subjectsOf (matching rolename items)))
    (h2 : st.usersInUse = ofKind "User" (subjectsOf (matching rolename items)))
    (h3 : st.groupsInUse = ofKind "Group" (subjectsOf (matching rolename items))) :
    CollectedFrom items rolename st := by
  refine ⟨h1, h2, h3, fun s => ⟨fun hk => ?_, fun hk => ?_, fun hk => ?_⟩⟩
  · rw [h1]; exact List.count_filter (by simpa using hk)
  · rw [h2]; exact List.count_filter (by simpa using hk)
  · rw [h3]; exact List.count_filter (by simpa using hk)

/-! ## Rendering -/

theorem stdout_append (a b : List Line) : stdout (a ++ b) = stdout a ++ stdout b := by
  apply String.ext
  simp [stdout, String.data_join, String.data_append]

theorem stdout_singleton (l : Line) : stdout [l] = l.render := by
  apply String.ext
  simp [stdout, String.data_join]

/-! ## The claims -/

/-- C1: with resource `role` (resp. `clusterrole`) and a listing `items` of
RoleBindings (resp. ClusterRoleBindings), the binding lines of the whole run
are, in listing order, one line (namespace, name) per binding whose role
reference name equals `rolename`, and there is no other binding line. -/
theorem binding_lines_exact (items : List Binding) (other : Except String (List Binding))
    (pods : Nat → String → Except String (List Pod)) (rolename : String) :
    (main ⟨.ok items, other, pods⟩ "role" rolename).st.out.filter Line.isBinding =
        (items.filter (fun b => decide (b.RoleRef.Name = rolename))).map
          (fun b => Line.binding b.Namespace b.Name) ∧
    (main ⟨other, .ok items, pods⟩ "clusterrole" rolename).st.out.filter Line.isBinding =
        (items.filter (fun b => decide (b.RoleRef.Name = rolename))).map
          (fun b => Line.binding b.Namespace b.Name) := by
  constructor
  · have hr := resolve_role ⟨.ok items, other, pods⟩ rolename items rfl
    rw [main_out _ _ _ (by rw [hr]), hr]
    simp only [List.filter_append, List.filter_cons, Line.isBinding, filter_isBinding_printList,
      filter_isBinding_blocks, filter_isBinding_map, List.append_nil, Bool.false_eq_true,
      if_false]
    rfl
  · have hr := resolve_clusterrole ⟨other, .ok items, pods⟩ rolename items rfl
    rw [main_out _ _ _ (by rw [hr]), hr]
    simp only [List.filter_append, List.filter_cons, Line.isBinding, filter_isBinding_printList,
      filter_isBinding_blocks, filter_isBinding_map, List.append_nil, Bool.false_eq_true,
      if_false]
    rfl

/-- C2: after the resolver step, and still at the end of the run, the three
collections are the subjects of the matching bindings, walked in listing order
and kept by exact kind; each collection holds a subject as many times as it
occurs across the matching bindings. -/
theorem collections_exact (items : List Binding) (other : Except String (List Binding))
    (pods : Nat → String → Except String (List Pod)) (rolename : String) :
    CollectedFrom items rolename
        (resolve ⟨.ok items, other, pods⟩ "role" rolename State.initial).1 ∧
    CollectedFrom items rolename
        (resolve ⟨other, .ok items, pods⟩ "clusterrole" rolename State.initial).1 ∧
    CollectedFrom items rolename (main ⟨.ok items, other, pods⟩ "role" rolename).st ∧
    CollectedFrom items rolename (main ⟨other, .ok items, pods⟩ "clusterrole" rolename).st := by
  have hr := resolve_role ⟨.ok items, other, pods⟩ rolename items rfl
  have hc := resolve_clusterrole ⟨other, .ok items, pods⟩ rolename items rfl
  have mr := main_collections ⟨.ok items, other, pods⟩ "role" rolename
  have mc := main_collections ⟨other, .ok items, pods⟩ "clusterrole" rolename
  rw [hr] at mr
  rw [hc] at mc
  refine ⟨?_, ?_, ?_, ?_⟩
  · rw [hr]; exact collectedFrom_of_eq items rolename _ rfl rfl rfl
  · rw [hc]; exact collectedFrom_of_eq items rolename _ rfl rfl rfl
  · exact collectedFrom_of_eq items rolename _ mr.1 mr.2.1 mr.2.2
  · exact collectedFrom_of_eq items rolename _ mc.1 mc.2.1 mc.2.2

/-- C3: at the end of every run, each member of the service-accounts
collection has kind `ServiceAccount`, each member of the users collection has
kind `User`, each member of the groups collection has kind `Group`; so a
subject is in at most the collection of its kind, a subject of any other kind
is in none of them, and the only way the run ends in an error is a failed
listing of the bindings. -/
theorem partition_by_kind (c : Cluster) (resource rolename : String) :
    (∀ s ∈ (main c resource rolename).st.serviceAccountsInUse, s.Kind = "ServiceAccount") ∧
    (∀ s ∈ (main c resource rolename).st.usersInUse, s.Kind = "User") ∧
    (∀ s ∈ (main c resource rolename).st.groupsInUse, s.Kind = "Group") ∧
    (∀ s : Subject, s.Kind = "ServiceAccount" →
      s ∉ (main c resource rolename).st.usersInUse ∧
      s ∉ (main c resource rolename).st.groupsInUse) ∧
    (∀ s : Subject, s.Kind = "User" →
      s ∉ (main c resource rolename).st.serviceAccountsInUse ∧
      s ∉ (main c resource rolename).st.groupsInUse) ∧
    (∀ s : Subject, s.Kind = "Group" →
      s ∉ (main c resource rolename).st.serviceAccountsInUse ∧
      s ∉ (main c resource rolename).st.usersInUse) ∧
    (∀ s : Subject, s.Kind ≠ "ServiceAccount" → s.Kind ≠ "User" → s.Kind ≠ "Group" →
      s ∉ (main c resource rolename).st.serviceAccountsInUse ∧
      s ∉ (main c resource rolename).st.usersInUse ∧
      s ∉ (main c resource rolename).st.groupsInUse) ∧
    ((main c resource rolename).panicked = none ∨
      (resource = "role" ∧ ∃ e, c.roleBindings = .error e) ∨
      (resource = "clusterrole" ∧ ∃ e, c.clusterRoleBindings = .error e)) := by
  obtain ⟨items, h1, h2, h3, _⟩ := resolve_collections c resource rolename
  obtain ⟨m1, m2, m3⟩ := main_collections c resource rolename
  rw [h1] at m1
  rw [h2] at m2
  rw [h3] at m3
  have k1 : ∀ s ∈ (main c resource rolename).st.serviceAccountsInUse,
      s.Kind = "ServiceAccount" := by
    intro s hs
    rw [m1] at hs
    simpa using (List.mem_filter.mp hs).2
  have k2 : ∀ s ∈ (main c resource rolename).st.usersInUse, s.Kind = "User" := by
    intro s hs
    rw [m2] at hs
    simpa using (List.mem_filter.mp hs).2
  have k3 : ∀ s ∈ (main c resource rolename).st.groupsInUse, s.Kind = "Group" := by
    intro s hs
    rw [m3] at hs
    simpa using (List.mem_filter.mp hs).2
  refine ⟨k1, k2, k3, ?_, ?_, ?_, ?_, ?_⟩
  · intro s hk
    refine ⟨fun hs => ?_, fun hs => ?_⟩
    · have := k2 s hs; rw [hk] at this; exact absurd this (by decide)
    · have := k3 s hs; rw [hk] at this; exact absurd this (by decide)
  · intro s hk
    refine ⟨fun hs => ?_, fun hs => ?_⟩
    · have := k1 s hs; rw [hk] at this; exact absurd this (by decide)
    · have := k3 s hs; rw [hk] at this; exact absurd this (by decide)
  · intro s hk
    refine ⟨fun hs => ?_, fun hs => ?_⟩
    · have := k1 s hs; rw [hk] at this; exact absurd this (by decide)
    · have := k2 s hs; rw [hk] at this; exact absurd this (by decide)
  · intro s n1 n2 n3
    exact ⟨fun hs => n1 (k1 s hs), fun hs => n2 (k2 s hs), fun hs => n3 (k3 s hs)⟩
  · by_cases r1 : resource = "role"
    · subst r1
      cases h : c.roleBindings with
      | error e => exact Or.inr (Or.inl ⟨rfl, e, rfl⟩)
      | ok its =>
        left
        rw [main_of_resolve c "role" rolename (by rw [resolve_role c rolename its h])]
    · by_cases r2 : resource = "clusterrole"
      · subst r2
        cases h : c.clusterRoleBindings with
        | error e => exact Or.inr (Or.inr ⟨rfl, e, rfl⟩)
        | ok its =>
          left
          rw [main_of_resolve c "clusterrole" rolename
            (by rw [resolve_clusterrole c rolename its h])]
      · left
        rw [main_of_resolve c resource rolename (by rw [resolve_other c resource rolename r1 r2])]

/-- C4: for a resource that is neither `role` nor `clusterrole`, whatever the
cluster and the role name, the run makes no API request, prints no binding
line, no subject listing and no pod block (only the two blank lines and the
fixed header of the pod report), leaves the three collections empty and ends
without a panic. -/
theorem unknown_resource_empty (c : Cluster) (resource rolename : String)
    (h1 : resource ≠ "role") (h2 : resource ≠ "clusterrole") :
    main c resource rolename =
      { st :=
          { out := [Line.blank, Line.blank, Line.podsHeader]
            calls := []
            serviceAccountsInUse := []
            groupsInUse := []
            usersInUse := []
            podsInUse := [] }
        panicked := none } := by
  unfold main
  rw [resolve_other c resource rolename h1 h2]
  simp [report, printSubjects, State.initial, State.emit, State.emitAll, printList]

/-- C4 at the resource `widget` on a cluster that has bindings for `editor`. -/
theorem unknown_resource_empty_witness :
    main sampleCluster "widget" "editor" =
      { st :=
          { out := [Line.blank, Line.blank, Line.podsHeader]
            calls := []
            serviceAccountsInUse := []
            groupsInUse := []
            usersInUse := []
            podsInUse := [] }
        panicked := none } :=
  unknown_resource_empty sampleCluster "widget" "editor" (by decide) (by decide)

theorem resolve_ok_of_subjects (c : Cluster) (resource rolename : String)
    (h : (loopStart c resource rolename).serviceAccountsInUse ≠ []) :
    (resolve c resource rolename State.initial).2 = none := by
  rw [(loopStart_fields c resource rolename).2.1] at h
  by_cases r1 : resource = "role"
  · subst r1
    cases hb : c.roleBindings with
    | error e =>
      exact absurd (by simp [resolve, hb, State.initial, State.emit, State.call]) h
    | ok its => rw [resolve_role c rolename its hb]
  · by_cases r2 : resource = "clusterrole"
    · subst r2
      cases hb : c.clusterRoleBindings with
      | error e =>
        exact absurd (by simp [resolve, hb, State.initial, State.emit, State.call]) h
      | ok its => rw [resolve_clusterrole c rolename its hb]
    · rw [resolve_other c resource rolename r1 r2]

theorem main_split (c : Cluster) (resource rolename : String) (pre post : List Subject)
    (sa : Subject)
    (hsplit : (loopStart c resource rolename).serviceAccountsInUse = pre ++ sa :: post) :
    main c resource rolename =
      { st := post.foldl (podStep c) (podStep c (iterStart c resource rolename pre) sa)
        panicked := none } := by
  rw [main_of_resolve c resource rolename
    (resolve_ok_of_subjects c resource rolename (by rw [hsplit]; simp)), hsplit]
  simp [iterStart, List.foldl_append]

theorem iterStart_podsInUse (c : Cluster) (resource rolename : String) (pre : List Subject) :
    (iterStart c resource rolename pre).podsInUse = [] :=
  loop_invariant c resource rolename pre

theorem printed_podStep (c : Cluster) (st : State) (sa : Subject) (h : st.podsInUse = []) :
    printedBetween st (podStep c st sa) = saBlock c st.calls.length sa ∧
    calledBetween st (podStep c st sa) = [Call.listPods sa.Namespace] ∧
    (podStep c st sa).podsInUse = [] ∧
    (podStep c st sa).out = st.out ++ saBlock c st.calls.length sa ∧
    (podStep c st sa).calls.length = st.calls.length + 1 := by
  rw [podStep_eq c st sa h]
  simp [printedBetween, calledBetween, h]

theorem printed_podLoop (c : Cluster) (st : State) (sas : List Subject)
    (h : st.podsInUse = []) :
    printedBetween st (sas.foldl (podStep c) st) = blocks c st.calls.length sas ∧
    calledBetween st (sas.foldl (podStep c) st) =
      sas.map (fun x => Call.listPods x.Namespace) := by
  rw [podLoop_eq c sas st h]
  simp [printedBetween, calledBetween]

theorem resolve_congr (c c' : Cluster) (resource rolename : String) (st : State)
    (h1 : c'.roleBindings = c.roleBindings)
    (h2 : c'.clusterRoleBindings = c.clusterRoleBindings) :
    resolve c' resource rolename st = resolve c resource rolename st := by
  simp [resolve, h1, h2]

theorem iterStart_calls (c : Cluster) (resource rolename : String) (pre : List Subject) :
    (iterStart c resource rolename pre).calls.length =
      (loopStart c resource rolename).calls.length + pre.length := by
  unfold iterStart
  rw [podLoop_eq c pre _ (loopStart_fields c resource rolename).1]
  simp

theorem podsUsing_eq_nil_iff (sa : Subject) (items : List Pod) :
    podsUsing sa items = [] ↔ ¬ ∃ p ∈ items, p.ServiceAccountName = sa.Name := by
  unfold podsUsing
  rw [List.filter_eq_nil_iff]
  simp

/-- C5: in a run whose collected service accounts are `pre ++ sa :: post` and
in which the pod listing made for `sa` (the request that follows those made up
to the end of the iterations for `pre`) returns `items`, the
iteration for `sa` starts and ends with an empty `podsInUse`, keeps what was
printed before, and prints either nothing (no pod of `items` declares the name
of `sa`) or the header of `sa` followed by one entry per pod of `items` that
declares the name of `sa`; the pod names of the entries are the names of
exactly these pods, in listing order. The run ends by the iterations for
`post`. -/
theorem pods_under_header (c : Cluster) (resource rolename : String)
    (pre post : List Subject) (sa : Subject) (items : List Pod)
    (hsplit : (loopStart c resource rolename).serviceAccountsInUse = pre ++ sa :: post)
    (hlist : c.pods (iterStart c resource rolename pre).calls.length sa.Namespace =
      .ok items) :
    (iterStart c resource rolename pre).podsInUse = [] ∧
    (podStep c (iterStart c resource rolename pre) sa).podsInUse = [] ∧
    (podStep c (iterStart c resource rolename pre) sa).out =
      (iterStart c resource rolename pre).out ++
        printedBetween (iterStart c resource rolename pre)
          (podStep c (iterStart c resource rolename pre) sa) ∧
    printedBetween (iterStart c resource rolename pre)
        (podStep c (iterStart c resource rolename pre) sa) =
      (if items.filter (fun p => decide (p.ServiceAccountName = sa.Name)) = [] then []
       else Line.saHeader sa.Name sa.Namespace ::
         podLines (items.filter (fun p => decide (p.ServiceAccountName = sa.Name)))) ∧
    (printedBetween (iterStart c resource rolename pre)
        (podStep c (iterStart c resource rolename pre) sa)).filterMap Line.podName =
      (items.filter (fun p => decide (p.ServiceAccountName = sa.Name))).map Pod.Name ∧
    main c resource rolename =
      { st := post.foldl (podStep c) (podStep c (iterStart c resource rolename pre) sa)
        panicked := none } := by
  have h0 := iterStart_podsInUse c resource rolename pre
  obtain ⟨p1, _, p3, p4, _⟩ := printed_podStep c _ sa h0
  have hb : saBlock c (iterStart c resource rolename pre).calls.length sa =
      (if items.filter (fun p => decide (p.ServiceAccountName = sa.Name)) = [] then []
       else Line.saHeader sa.Name sa.Namespace ::
         podLines (items.filter (fun p => decide (p.ServiceAccountName = sa.Name)))) := by
    simp [saBlock, hlist, podsUsing]
  refine ⟨h0, p3, ?_, ?_, ?_, main_split c resource rolename pre post sa hsplit⟩
  · rw [p1]; exact p4
  · rw [p1]; exact hb
  · rw [p1, hb]
    by_cases hm : items.filter (fun p => decide (p.ServiceAccountName = sa.Name)) = []
    · simp [hm]
    · rw [if_neg hm, List.filterMap_cons]
      simp only [Line.podName]
      exact podLines_podName _

/-- C6: in a run whose collected service accounts are `pre ++ sa :: post`, the
iteration for `sa` prints a line of a pod block exactly when the pod listing
made for `sa` succeeds and holds a pod that declares the name of `sa`;
the block is then the header of `sa` followed by the pod entries, and when the
listing holds no such pod the iteration prints nothing at all. -/
theorem pod_block_iff (c : Cluster) (resource rolename : String)
    (pre post : List Subject) (sa : Subject)
    (hsplit : (loopStart c resource rolename).serviceAccountsInUse = pre ++ sa :: post) :
    ((∃ l ∈ printedBetween (iterStart c resource rolename pre)
          (podStep c (iterStart c resource rolename pre) sa), l.isPodBlock = true) ↔
      ∃ items, c.pods (iterStart c resource rolename pre).calls.length sa.Namespace =
          .ok items ∧
        ∃ p ∈ items, p.ServiceAccountName = sa.Name) ∧
    (∀ items, c.pods (iterStart c resource rolename pre).calls.length sa.Namespace =
        .ok items →
      (∃ p ∈ items, p.ServiceAccountName = sa.Name) →
      printedBetween (iterStart c resource rolename pre)
          (podStep c (iterStart c resource rolename pre) sa) =
        Line.saHeader sa.Name sa.Namespace ::
          podLines (items.filter (fun p => decide (p.ServiceAccountName = sa.Name))) ∧
      podLines (items.filter (fun p => decide (p.ServiceAccountName = sa.Name))) ≠ []) ∧
    (∀ items, c.pods (iterStart c resource rolename pre).calls.length sa.Namespace =
        .ok items →
      (¬ ∃ p ∈ items, p.ServiceAccountName = sa.Name) →
      printedBetween (iterStart c resource rolename pre)
          (podStep c (iterStart c resource rolename pre) sa) = []) ∧
    (Line.saHeader sa.Name sa.Namespace).render =
      "ServiceAccount: " ++ sa.Name ++ " - Namespace: " ++ sa.Namespace ++ "\n" ∧
    main c resource rolename =
      { st := post.foldl (podStep c) (podStep c (iterStart c resource rolename pre) sa)
        panicked := none } := by
  have h0 := iterStart_podsInUse c resource rolename pre
  obtain ⟨p1, _, _, _, _⟩ := printed_podStep c _ sa h0
  rw [p1]
  refine ⟨?_, ?_, ?_, rfl, main_split c resource rolename pre post sa hsplit⟩
  · cases hp : c.pods (iterStart c resource rolename pre).calls.length sa.Namespace with
    | error e => simp [saBlock, hp, Line.isPodBlock]
    | ok items =>
      by_cases hm : podsUsing sa items = []
      · have hn := (podsUsing_eq_nil_iff sa items).mp hm
        simp only [saBlock, hp, hm, if_true, List.not_mem_nil, false_and, exists_false,
          false_iff]
        rintro ⟨its, hits, hex⟩
        cases hits
        exact hn hex
      · have hn : ∃ p ∈ items, p.ServiceAccountName = sa.Name := by
          by_contra hcon
          exact hm ((podsUsing_eq_nil_iff sa items).mpr hcon)
        constructor
        · intro _
          exact ⟨items, rfl, hn⟩
        · intro _
          refine ⟨Line.saHeader sa.Name sa.Namespace, ?_, rfl⟩
          simp [saBlock, hp, hm]
  · intro items hp hex
    have hm : ¬ podsUsing sa items = [] := fun hm => (podsUsing_eq_nil_iff sa items).mp hm hex
    have hb : saBlock c (iterStart c resource rolename pre).calls.length sa =
        Line.saHeader sa.Name sa.Namespace :: podLines (podsUsing sa items) := by
      simp [saBlock, hp, hm]
    refine ⟨hb, ?_⟩
    intro hnil
    apply hm
    rcases List.eq_nil_or_concat (podsUsing sa items) with h | ⟨rest, p, h⟩
    · exact h
    · have hnil2 : podLines (podsUsing sa items) = [] := hnil
      rw [h, List.concat_eq_append, podLines_concat] at hnil2
      simp at hnil2
  · intro items hp hex
    have hm := (podsUsing_eq_nil_iff sa items).mpr hex
    simp [saBlock, hp, hm]

/-- C7: in a run whose collected service accounts are `pre ++ sa :: post` and
in which the pod listing made for `sa` fails (whatever the listings made for
the other subjects, of the same namespace or not, return), the run does not
panic; the iteration for `sa` prints the failure message with the name of `sa`
and nothing else, and leaves `podsInUse` empty; the run goes on with the
iterations for `post`, each of which makes its pod listing request. What these
later iterations request and print does not depend on the failed request: in a
run on any cluster that differs at most in the answer to that one request (so
also one where it succeeds), they request and print the same. -/
theorem pod_failure_recoverable (c : Cluster) (resource rolename : String)
    (pre post : List Subject) (sa : Subject) (e : String)
    (hsplit : (loopStart c resource rolename).serviceAccountsInUse = pre ++ sa :: post)
    (hfail : c.pods (iterStart c resource rolename pre).calls.length sa.Namespace =
      .error e) :
    (main c resource rolename).panicked = none ∧
    printedBetween (iterStart c resource rolename pre)
        (podStep c (iterStart c resource rolename pre) sa) = [Line.podFail sa.Name] ∧
    (podStep c (iterStart c resource rolename pre) sa).podsInUse = [] ∧
    (main c resource rolename).st =
      post.foldl (podStep c) (podStep c (iterStart c resource rolename pre) sa) ∧
    (main c resource rolename).st.out =
      (iterStart c resource rolename pre).out ++ [Line.podFail sa.Name] ++
        printedBetween (podStep c (iterStart c resource rolename pre) sa)
          (main c resource rolename).st ∧
    calledBetween (podStep c (iterStart c resource rolename pre) sa)
        (main c resource rolename).st =
      post.map (fun x => Call.listPods x.Namespace) ∧
    stdout (main c resource rolename).st.out =
      stdout (iterStart c resource rolename pre).out ++
        ("Failed to get pods with service account '" ++ sa.Name ++ "'") ++
        stdout (printedBetween (podStep c (iterStart c resource rolename pre) sa)
          (main c resource rolename).st) ∧
    (∀ c' : Cluster, c'.roleBindings = c.roleBindings →
      c'.clusterRoleBindings = c.clusterRoleBindings →
      (∀ n ns, n ≠ (iterStart c resource rolename pre).calls.length →
        c'.pods n ns = c.pods n ns) →
      (main c' resource rolename).panicked = none ∧
      iterStart c' resource rolename pre = iterStart c resource rolename pre ∧
      (main c' resource rolename).st =
        post.foldl (podStep c') (podStep c' (iterStart c' resource rolename pre) sa) ∧
      printedBetween (podStep c' (iterStart c' resource rolename pre) sa)
          (main c' resource rolename).st =
        printedBetween (podStep c (iterStart c resource rolename pre) sa)
          (main c resource rolename).st ∧
      calledBetween (podStep c' (iterStart c' resource rolename pre) sa)
          (main c' resource rolename).st =
        calledBetween (podStep c (iterStart c resource rolename pre) sa)
          (main c resource rolename).st) := by
  have h0 := iterStart_podsInUse c resource rolename pre
  obtain ⟨p1, _, p3, p4, p5⟩ := printed_podStep c _ sa h0
  have hb : saBlock c (iterStart c resource rolename pre).calls.length sa =
      [Line.podFail sa.Name] := by simp [saBlock, hfail]
  have hm := main_split c resource rolename pre post sa hsplit
  obtain ⟨q1, q2⟩ := printed_podLoop c _ post p3
  have hout : (main c resource rolename).st.out =
      (iterStart c resource rolename pre).out ++ [Line.podFail sa.Name] ++
        printedBetween (podStep c (iterStart c resource rolename pre) sa)
          (main c resource rolename).st := by
    rw [hm]
    simp only
    rw [q1, podLoop_eq c post _ p3, p4, hb]
  refine ⟨by rw [hm], by rw [p1, hb], p3, by rw [hm], hout, by rw [hm]; exact q2, ?_, ?_⟩
  · rw [hout, stdout_append, stdout_append, stdout_singleton]
    rfl
  · intro c' hrb hcrb hpods
    have hres := resolve_congr c c' resource rolename State.initial hrb hcrb
    have hls : loopStart c' resource rolename = loopStart c resource rolename := by
      simp [loopStart, hres]
    have hlen := iterStart_calls c resource rolename pre
    have hit : iterStart c' resource rolename pre = iterStart c resource rolename pre := by
      unfold iterStart
      rw [hls, podLoop_eq c' pre _ (loopStart_fields c resource rolename).1,
        podLoop_eq c pre _ (loopStart_fields c resource rolename).1,
        blocks_congr c c' _ pre (fun m ns _ h2 => hpods m ns (by omega))]
    have hsplit' : (loopStart c' resource rolename).serviceAccountsInUse =
        pre ++ sa :: post := by rw [hls]; exact hsplit
    have hm' := main_split c' resource rolename pre post sa hsplit'
    rw [hit] at hm' ⊢
    obtain ⟨_, _, p3', _, p5'⟩ := printed_podStep c' _ sa h0
    obtain ⟨q1', q2'⟩ := printed_podLoop c' _ post p3'
    refine ⟨by rw [hm'], rfl, by rw [hm'], ?_, ?_⟩
    · rw [hm', hm]
      simp only
      rw [q1', q1, p5', p5]
      exact blocks_congr c c' _ post (fun m ns h1 _ => hpods m ns (by omega))
    · rw [hm', hm]
      simp only
      rw [q2', q2]

/-- C8, as stated, fails: the listing of the subject `deployer` of namespace
`team-a` does not contain the text `deployer (team-a)`. -/
theorem entry_text_counterexample :
    ¬ ("deployer (team-a)".data <:+:
        (stdout (printList "role" "editor" "ServiceAccounts" [deployer])).data) := by
  decide

/-- C8, amended: `printList` prints nothing for an empty list; for a list of
`n ≥ 1` subjects it prints the header, then the first `n - 1` subjects with the
glyph `├─` and the last one with the glyph `└─`, in list order, each entry
showing the name followed by blanks up to 25 characters and then the namespace
in brackets; the pod entries follow the same branch rule with the bare pod
name, so `web-0`, `web-1` give `├─ web-0` and `└─ web-1`. -/
theorem tree_rendering (resource rolename kind : String) (rest : List Subject) (s : Subject)
    (pods : List Pod) (p : Pod) (name ns : String) :
    printList resource rolename kind [] = [] ∧
    printList resource rolename kind (rest ++ [s]) =
      Line.listHeader kind resource rolename ::
        (rest.map (fun x => Line.subjectMid x.Name x.Namespace) ++
          [Line.subjectLast s.Name s.Namespace]) ∧
    (printList resource rolename kind (rest ++ [s])).length = (rest ++ [s]).length + 1 ∧
    (Line.listHeader kind resource rolename).render =
      kind ++ " bound to " ++ resource ++ ": " ++ rolename ++ "\n" ∧
    (Line.subjectMid name ns).render =
      "  ├─ " ++ (name ++ String.mk (List.replicate (25 - name.length) ' ')) ++
        " (" ++ ns ++ ")\n" ∧
    (Line.subjectLast name ns).render =
      "  └─ " ++ (name ++ String.mk (List.replicate (25 - name.length) ' ')) ++
        " (" ++ ns ++ ")\n\n" ∧
    podLines [] = [] ∧
    podLines (pods ++ [p]) =
      pods.map (fun x => Line.podMid x.Name) ++ [Line.podLast p.Name] ∧
    (Line.podMid name).render = "  ├─ " ++ name ++ "\n" ∧
    (Line.podLast name).render = "  └─ " ++ name ++ "\n\n" ∧
    stdout (podLines [{ Name := "web-0", Namespace := "ns1", ServiceAccountName := "web" },
        { Name := "web-1", Namespace := "ns1", ServiceAccountName := "web" }]) =
      "  ├─ web-0\n  └─ web-1\n\n" := by
  refine ⟨printList_nil resource rolename kind, printList_concat resource rolename kind rest s,
    ?_, rfl, rfl, rfl, podLines_nil, podLines_concat pods p, rfl, rfl, by decide⟩
  rw [printList_concat]
  simp

/-- C9, as stated, fails: in the example scenario the output does not contain
the text `team-a - alice-binding`. -/
theorem scenario_text_counterexample :
    ¬ ("team-a - alice-binding".data <:+:
        (stdout (main (scenario "web-0") "role" "editor").st.out).data) := by
  decide

/-- C9, amended: in the example scenario, for any name of the pod, the run
prints the header for `editor`, the binding line with `team-a` followed by
blanks up to 25 characters and ` - alice-binding`, the ServiceAccounts listing
with the single terminal entry `deployer` followed by blanks up to 25
characters and `(team-a)`, no Users and no Groups listing, and under the header
of `deployer` in `team-a` the pod name as the single terminal entry; the run
does not panic. -/
theorem example_scenario (podName : String) :
    main (scenario podName) "role" "editor" =
      { st :=
          { out := [Line.roleBindingsHeader "editor", Line.binding "team-a" "alice-binding",
              Line.blank, Line.listHeader "ServiceAccounts" "role" "editor",
              Line.subjectLast "deployer" "team-a", Line.blank, Line.podsHeader,
              Line.saHeader "deployer" "team-a", Line.podLast podName]
            calls := [Call.listRoleBindings, Call.listPods "team-a"]
            serviceAccountsInUse := [deployer]
            groupsInUse := []
            usersInUse := []
            podsInUse := [] }
        panicked := none } ∧
    stdout (main (scenario podName) "role" "editor").st.out =
      "RoleBindings for editor:\n  ├─ team-a                    - alice-binding\n\nServiceAccounts bound to role: editor\n  └─ deployer                  (team-a)\n\n\nPods which use the SA from above:\nServiceAccount: deployer - Namespace: team-a\n  └─ " ++ podName ++ "\n\n" := by
  have h : main (scenario podName) "role" "editor" =
      { st :=
          { out := [Line.roleBindingsHeader "editor", Line.binding "team-a" "alice-binding",
              Line.blank, Line.listHeader "ServiceAccounts" "role" "editor",
              Line.subjectLast "deployer" "team-a", Line.blank, Line.podsHeader,
              Line.saHeader "deployer" "team-a", Line.podLast podName]
            calls := [Call.listRoleBindings, Call.listPods "team-a"]
            serviceAccountsInUse := [deployer]
            groupsInUse := []
            usersInUse := []
            podsInUse := [] }
        panicked := none } := by
    rfl
  refine ⟨h, ?_⟩
  rw [h]
  have hsplit : [Line.roleBindingsHeader "editor", Line.binding "team-a" "alice-binding",
      Line.blank, Line.listHeader "ServiceAccounts" "role" "editor",
      Line.subjectLast "deployer" "team-a", Line.blank, Line.podsHeader,
      Line.saHeader "deployer" "team-a", Line.podLast podName] =
      [Line.roleBindingsHeader "editor", Line.binding "team-a" "alice-binding",
      Line.blank, Line.listHeader "ServiceAccounts" "role" "editor",
      Line.subjectLast "deployer" "team-a", Line.blank, Line.podsHeader,
      Line.saHeader "deployer" "team-a"] ++ [Line.podLast podName] := rfl
  have hhead : stdout [Line.roleBindingsHeader "editor", Line.binding "team-a" "alice-binding",
      Line.blank, Line.listHeader "ServiceAccounts" "role" "editor",
      Line.subjectLast "deployer" "team-a", Line.blank, Line.podsHeader,
      Line.saHeader "deployer" "team-a"] =
      "RoleBindings for editor:\n  ├─ team-a                    - alice-binding\n\nServiceAccounts bound to role: editor\n  └─ deployer                  (team-a)\n\n\nPods which use the SA from above:\nServiceAccount: deployer - Namespace: team-a\n" := by
    decide
  have hlast : stdout [Line.podLast podName] = "  └─ " ++ podName ++ "\n\n" := by
    apply String.ext
    simp [stdout, String.data_join, Line.render]
  show stdout [Line.roleBindingsHeader "editor", Line.binding "team-a" "alice-binding",
      Line.blank, Line.listHeader "ServiceAccounts" "role" "editor",
      Line.subjectLast "deployer" "team-a", Line.blank, Line.podsHeader,
      Line.saHeader "deployer" "team-a", Line.podLast podName] = _
  rw [hsplit, stdout_append, hhead, hlast]
  apply String.ext
  simp [String.data_append]

/-! ## Matching looks at the role reference name only -/

theorem erase_of_not_binding (l : Line) (h : l.isBinding = false) :
    l.eraseBindingNamespace = l := by
  cases l <;> simp_all [Line.isBinding, Line.eraseBindingNamespace]

theorem map_erase_of_not_binding (ls : List Line) (h : ∀ l ∈ ls, l.isBinding = false) :
    ls.map Line.eraseBindingNamespace = ls := by
  induction ls with
  | nil => rfl
  | cons a r ih =>
    rw [List.map_cons, erase_of_not_binding a (h a (List.mem_cons_self a r)),
      ih (fun l hl => h l (List.mem_cons_of_mem a hl))]

theorem map_erase_printList (resource rolename kind : String) (subs : List Subject) :
    (printList resource rolename kind subs).map Line.eraseBindingNamespace =
      printList resource rolename kind subs :=
  map_erase_of_not_binding _
    (fun l hl => (printList_isSubjectListing resource rolename kind subs l hl).2.1)

theorem map_erase_blocks (c : Cluster) (n : Nat) (sas : List Subject) :
    (blocks c n sas).map Line.eraseBindingNamespace = blocks c n sas :=
  map_erase_of_not_binding _ (fun l hl => (blocks_not_binding c n sas l hl).1)

theorem forall2_matching (rolename : String) (bs bs' : List Binding)
    (h : List.Forall₂ SameUpToRefKind bs bs') :
    (matching rolename bs).map (fun b => Line.binding "" b.Name) =
        (matching rolename bs').map (fun b => Line.binding "" b.Name) ∧
    subjectsOf (matching rolename bs) = subjectsOf (matching rolename bs') := by
  induction h with
  | nil => exact ⟨rfl, rfl⟩
  | @cons b b' r r' hb _ ih =>
    obtain ⟨hn, hr, hs⟩ := hb
    unfold matching subjectsOf at ih ⊢
    by_cases hm : b.RoleRef.Name = rolename
    · have hm' : b'.RoleRef.Name = rolename := by rw [← hr]; exact hm
      simp only [List.filter_cons, hm, hm', decide_True, if_true, List.map_cons,
        List.flatMap_cons, hn, hs, ih.1, ih.2, and_self]
    · have hm' : ¬ b'.RoleRef.Name = rolename := by rw [← hr]; exact hm
      simp only [List.filter_cons, hm, hm', decide_False, Bool.false_eq_true, if_false]
      exact ih

theorem erased_out (c : Cluster) (resource rolename : String) (hdr : Line)
    (items : List Binding) (calls : List Call) (hh : hdr.isBinding = false)
    (hr : resolve c resource rolename State.initial =
      ({ out := hdr :: (matching rolename items).map (fun b => Line.binding b.Namespace b.Name)
         calls := calls
         serviceAccountsInUse := ofKind "ServiceAccount" (subjectsOf (matching rolename items))
         groupsInUse := ofKind "Group" (subjectsOf (matching rolename items))
         usersInUse := ofKind "User" (subjectsOf (matching rolename items))
         podsInUse := [] }, none)) :
    (main c resource rolename).st.out.map Line.eraseBindingNamespace =
      hdr :: ((matching rolename items).map (fun b => Line.binding "" b.Name) ++
        (Line.blank ::
          (printList resource rolename "ServiceAccounts"
              (ofKind "ServiceAccount" (subjectsOf (matching rolename items))) ++
            (printList resource rolename "Users"
                (ofKind "User" (subjectsOf (matching rolename items))) ++
              (printList resource rolename "Groups"
                  (ofKind "Group" (subjectsOf (matching rolename items))) ++
                (Line.blank :: Line.podsHeader ::
                  blocks c calls.length
                    (ofKind "ServiceAccount" (subjectsOf (matching rolename items))))))))) := by
  rw [main_out c resource rolename (by rw [hr]), hr]
  simp only [List.map_append, List.map_cons, List.cons_append, map_erase_printList,
    map_erase_blocks, erase_of_not_binding hdr hh, List.map_map]
  rfl

/-- C10: two listings whose bindings agree, position by position, in name,
role reference name and subjects (and may differ in namespace and in the kind
and API group of the role reference) give, for `role` and for `clusterrole`,
the same output up to the namespace column of the binding lines and the same
three collections. In particular, with `role`, a RoleBinding whose role
reference has kind `ClusterRole` and the requested name is reported, whatever
its namespace and wherever it stands in the listing. -/
theorem match_by_name_only (rolename : String) (bs bs' : List Binding)
    (other : Except String (List Binding)) (pods : Nat → String → Except String (List Pod))
    (h : List.Forall₂ SameUpToRefKind bs bs') :
    ((main ⟨.ok bs, other, pods⟩ "role" rolename).st.out.map Line.eraseBindingNamespace =
        (main ⟨.ok bs', other, pods⟩ "role" rolename).st.out.map Line.eraseBindingNamespace ∧
      (main ⟨.ok bs, other, pods⟩ "role" rolename).st.serviceAccountsInUse =
        (main ⟨.ok bs', other, pods⟩ "role" rolename).st.serviceAccountsInUse ∧
      (main ⟨.ok bs, other, pods⟩ "role" rolename).st.usersInUse =
        (main ⟨.ok bs', other, pods⟩ "role" rolename).st.usersInUse ∧
      (main ⟨.ok bs, other, pods⟩ "role" rolename).st.groupsInUse =
        (main ⟨.ok bs', other, pods⟩ "role" rolename).st.groupsInUse) ∧
    ((main ⟨other, .ok bs, pods⟩ "clusterrole" rolename).st.out.map
          Line.eraseBindingNamespace =
        (main ⟨other, .ok bs', pods⟩ "clusterrole" rolename).st.out.map
          Line.eraseBindingNamespace ∧
      (main ⟨other, .ok bs, pods⟩ "clusterrole" rolename).st.serviceAccountsInUse =
        (main ⟨other, .ok bs', pods⟩ "clusterrole" rolename).st.serviceAccountsInUse ∧
      (main ⟨other, .ok bs, pods⟩ "clusterrole" rolename).st.usersInUse =
        (main ⟨other, .ok bs', pods⟩ "clusterrole" rolename).st.usersInUse ∧
      (main ⟨other, .ok bs, pods⟩ "clusterrole" rolename).st.groupsInUse =
        (main ⟨other, .ok bs', pods⟩ "clusterrole" rolename).st.groupsInUse) ∧
    (∀ (pre post : List Binding) (b : Binding),
      b.RoleRef.Kind = "ClusterRole" → b.RoleRef.Name = rolename →
      Line.binding b.Namespace b.Name ∈
        (main ⟨.ok (pre ++ b :: post), other, pods⟩ "role" rolename).st.out) := by
  obtain ⟨e1, e2⟩ := forall2_matching rolename bs bs' h
  refine ⟨?_, ?_, ?_⟩
  · have r := resolve_role ⟨.ok bs, other, pods⟩ rolename bs rfl
    have r' := resolve_role ⟨.ok bs', other, pods⟩ rolename bs' rfl
    have m := main_collections ⟨.ok bs, other, pods⟩ "role" rolename
    have m' := main_collections ⟨.ok bs', other, pods⟩ "role" rolename
    rw [r] at m
    rw [r'] at m'
    refine ⟨?_, ?_, ?_, ?_⟩
    · rw [erased_out _ _ _ (Line.roleBindingsHeader rolename) bs _ rfl r,
        erased_out _ _ _ (Line.roleBindingsHeader rolename) bs' _ rfl r', e1, e2,
        blocks_congr ⟨.ok bs', other, pods⟩ ⟨.ok bs, other, pods⟩ _ _ (fun _ _ _ _ => rfl)]
    · rw [m.1, m'.1, e2]
    · rw [m.2.1, m'.2.1, e2]
    · rw [m.2.2, m'.2.2, e2]
  · have r := resolve_clusterrole ⟨other, .ok bs, pods⟩ rolename bs rfl
    have r' := resolve_clusterrole ⟨other, .ok bs', pods⟩ rolename bs' rfl
    have m := main_collections ⟨other, .ok bs, pods⟩ "clusterrole" rolename
    have m' := main_collections ⟨other, .ok bs', pods⟩ "clusterrole" rolename
    rw [r] at m
    rw [r'] at m'
    refine ⟨?_, ?_, ?_, ?_⟩
    · rw [erased_out _ _ _ (Line.clusterRoleBindingsHeader rolename) bs _ rfl r,
        erased_out _ _ _ (Line.clusterRoleBindingsHeader rolename) bs' _ rfl r', e1, e2,
        blocks_congr ⟨other, .ok bs', pods⟩ ⟨other, .ok bs, pods⟩ _ _ (fun _ _ _ _ => rfl)]
    · rw [m.1, m'.1, e2]
    · rw [m.2.1, m'.2.1, e2]
    · rw [m.2.2, m'.2.2, e2]
  · intro pre post b _ hn
    have r := resolve_role ⟨.ok (pre ++ b :: post), other, pods⟩ rolename (pre ++ b :: post) rfl
    rw [main_out _ _ _ (by rw [r]), r]
    apply List.mem_append_left
    apply List.mem_cons_of_mem
    rw [List.mem_map]
    refine ⟨b, ?_, rfl⟩
    unfold matching
    rw [List.mem_filter]
    exact ⟨by simp, by simpa using hn⟩

/-! ## Concrete runs -/

/-- C5 at the second of two service accounts of one namespace: the pods of the
first account do not show under the second. -/
theorem pods_under_header_witness :
    (iterStart twoAccounts "role" "editor" [deployer]).podsInUse = [] ∧
    (podStep twoAccounts (iterStart twoAccounts "role" "editor" [deployer]) builder).podsInUse = [] ∧
    (podStep twoAccounts (iterStart twoAccounts "role" "editor" [deployer]) builder).out =
      (iterStart twoAccounts "role" "editor" [deployer]).out ++
        printedBetween (iterStart twoAccounts "role" "editor" [deployer])
          (podStep twoAccounts (iterStart twoAccounts "role" "editor" [deployer]) builder) ∧
    printedBetween (iterStart twoAccounts "role" "editor" [deployer])
        (podStep twoAccounts (iterStart twoAccounts "role" "editor" [deployer]) builder) =
      (if teamPods.filter (fun p => decide (p.ServiceAccountName = builder.Name)) = [] then []
       else Line.saHeader builder.Name builder.Namespace ::
         podLines (teamPods.filter (fun p => decide (p.ServiceAccountName = builder.Name)))) ∧
    (printedBetween (iterStart twoAccounts "role" "editor" [deployer])
        (podStep twoAccounts (iterStart twoAccounts "role" "editor" [deployer]) builder)).filterMap Line.podName =
      (teamPods.filter (fun p => decide (p.ServiceAccountName = builder.Name))).map Pod.Name ∧
    main twoAccounts "role" "editor" =
      { st := [].foldl (podStep twoAccounts) (podStep twoAccounts (iterStart twoAccounts "role" "editor" [deployer]) builder)
        panicked := none } :=
  pods_under_header twoAccounts "role" "editor" [deployer] [] builder teamPods rfl rfl

/-- C6 at the second of two service accounts of one namespace. -/
theorem pod_block_iff_witness :
    ((∃ l ∈ printedBetween (iterStart twoAccounts "role" "editor" [deployer])
          (podStep twoAccounts (iterStart twoAccounts "role" "editor" [deployer]) builder), l.isPodBlock = true) ↔
      ∃ items, twoAccounts.pods (iterStart twoAccounts "role" "editor" [deployer]).calls.length builder.Namespace =
          .ok items ∧
        ∃ p ∈ items, p.ServiceAccountName = builder.Name) ∧
    (∀ items, twoAccounts.pods (iterStart twoAccounts "role" "editor" [deployer]).calls.length builder.Namespace =
        .ok items →
      (∃ p ∈ items, p.ServiceAccountName = builder.Name) →
      printedBetween (iterStart twoAccounts "role" "editor" [deployer])
          (podStep twoAccounts (iterStart twoAccounts "role" "editor" [deployer]) builder) =
        Line.saHeader builder.Name builder.Namespace ::
          podLines (items.filter (fun p => decide (p.ServiceAccountName = builder.Name))) ∧
      podLines (items.filter (fun p => decide (p.ServiceAccountName = builder.Name))) ≠ []) ∧
    (∀ items, twoAccounts.pods (iterStart twoAccounts "role" "editor" [deployer]).calls.length builder.Namespace =
        .ok items →
      (¬ ∃ p ∈ items, p.ServiceAccountName = builder.Name) →
      printedBetween (iterStart twoAccounts "role" "editor" [deployer])
          (podStep twoAccounts (iterStart twoAccounts "role" "editor" [deployer]) builder) = []) ∧
    (Line.saHeader builder.Name builder.Namespace).render =
      "ServiceAccount: " ++ builder.Name ++ " - Namespace: " ++ builder.Namespace ++ "\n" ∧
    main twoAccounts "role" "editor" =
      { st := [].foldl (podStep twoAccounts) (podStep twoAccounts (iterStart twoAccounts "role" "editor" [deployer]) builder)
        panicked := none } :=
  pod_block_iff twoAccounts "role" "editor" [deployer] [] builder rfl

/-- The run on `flakyCluster`: the failed listing for `builder` leaves its
message, and `deployer`, of the same namespace, is reported with its pods. -/
theorem flaky_run :
    (main flakyCluster "role" "editor").st.out =
      [Line.roleBindingsHeader "editor", Line.binding "team-a" "ci-binding", Line.blank,
        Line.listHeader "ServiceAccounts" "role" "editor",
        Line.subjectMid "builder" "team-a", Line.subjectLast "deployer" "team-a",
        Line.blank, Line.podsHeader, Line.podFail "builder",
        Line.saHeader "deployer" "team-a", Line.podMid "web-0", Line.podLast "web-1"] ∧
    (main flakyCluster "role" "editor").st.calls =
      [Call.listRoleBindings, Call.listPods "team-a", Call.listPods "team-a"] ∧
    (main flakyCluster "role" "editor").panicked = none := by
  decide

/-- C7 at two service accounts of one namespace: the listing for the first
fails, the listing for the second succeeds and its pods are reported. -/
theorem pod_failure_recoverable_witness :
    (main flakyCluster "role" "editor").panicked = none ∧
    printedBetween (iterStart flakyCluster "role" "editor" [])
        (podStep flakyCluster (iterStart flakyCluster "role" "editor" []) builder) = [Line.podFail builder.Name] ∧
    (podStep flakyCluster (iterStart flakyCluster "role" "editor" []) builder).podsInUse = [] ∧
    (main flakyCluster "role" "editor").st =
      [deployer].foldl (podStep flakyCluster) (podStep flakyCluster (iterStart flakyCluster "role" "editor" []) builder) ∧
    (main flakyCluster "role" "editor").st.out =
      (iterStart flakyCluster "role" "editor" []).out ++ [Line.podFail builder.Name] ++
        printedBetween (podStep flakyCluster (iterStart flakyCluster "role" "editor" []) builder)
          (main flakyCluster "role" "editor").st ∧
    calledBetween (podStep flakyCluster (iterStart flakyCluster "role" "editor" []) builder)
        (main flakyCluster "role" "editor").st =
      [deployer].map (fun x => Call.listPods x.Namespace) ∧
    stdout (main flakyCluster "role" "editor").st.out =
      stdout (iterStart flakyCluster "role" "editor" []).out ++
        ("Failed to get pods with service account '" ++ builder.Name ++ "'") ++
        stdout (printedBetween (podStep flakyCluster (iterStart flakyCluster "role" "editor" []) builder)
          (main flakyCluster "role" "editor").st) ∧
    (∀ c' : Cluster, c'.roleBindings = flakyCluster.roleBindings →
      c'.clusterRoleBindings = flakyCluster.clusterRoleBindings →
      (∀ n ns, n ≠ (iterStart flakyCluster "role" "editor" []).calls.length →
        c'.pods n ns = flakyCluster.pods n ns) →
      (main c' "role" "editor").panicked = none ∧
      iterStart c' "role" "editor" [] = iterStart flakyCluster "role" "editor" [] ∧
      (main c' "role" "editor").st =
        [deployer].foldl (podStep c') (podStep c' (iterStart c' "role" "editor" []) builder) ∧
      printedBetween (podStep c' (iterStart c' "role" "editor" []) builder)
          (main c' "role" "editor").st =
        printedBetween (podStep flakyCluster (iterStart flakyCluster "role" "editor" []) builder)
          (main flakyCluster "role" "editor").st ∧
      calledBetween (podStep c' (iterStart c' "role" "editor" []) builder)
          (main c' "role" "editor").st =
        calledBetween (podStep flakyCluster (iterStart flakyCluster "role" "editor" []) builder)
          (main flakyCluster "role" "editor").st) :=
  pod_failure_recoverable flakyCluster "role" "editor" [] [deployer] builder
    "context deadline exceeded" rfl rfl

/-- C10 at a binding that moves from `team-a` to `team-b` and from a Role
reference to a ClusterRole reference. -/
theorem match_by_name_only_witness :
    ((main ⟨.ok [aliceViaRole], (.ok []), (fun _ _ => .ok [])⟩ "role" "editor").st.out.map Line.eraseBindingNamespace =
        (main ⟨.ok [aliceViaClusterRole], (.ok []), (fun _ _ => .ok [])⟩ "role" "editor").st.out.map Line.eraseBindingNamespace ∧
      (main ⟨.ok [aliceViaRole], (.ok []), (fun _ _ => .ok [])⟩ "role" "editor").st.serviceAccountsInUse =
        (main ⟨.ok [aliceViaClusterRole], (.ok []), (fun _ _ => .ok [])⟩ "role" "editor").st.serviceAccountsInUse ∧
      (main ⟨.ok [aliceViaRole], (.ok []), (fun _ _ => .ok [])⟩ "role" "editor").st.usersInUse =
        (main ⟨.ok [aliceViaClusterRole], (.ok []), (fun _ _ => .ok [])⟩ "role" "editor").st.usersInUse ∧
      (main ⟨.ok [aliceViaRole], (.ok []), (fun _ _ => .ok [])⟩ "role" "editor").st.groupsInUse =
        (main ⟨.ok [aliceViaClusterRole], (.ok []), (fun _ _ => .ok [])⟩ "role" "editor").st.groupsInUse) ∧
    ((main ⟨(.ok []), .ok [aliceViaRole], (fun _ _ => .ok [])⟩ "clusterrole" "editor").st.out.map
          Line.eraseBindingNamespace =
        (main ⟨(.ok []), .ok [aliceViaClusterRole], (fun _ _ => .ok [])⟩ "clusterrole" "editor").st.out.map
          Line.eraseBindingNamespace ∧
      (main ⟨(.ok []), .ok [aliceViaRole], (fun _ _ => .ok [])⟩ "clusterrole" "editor").st.serviceAccountsInUse =
        (main ⟨(.ok []), .ok [aliceViaClusterRole], (fun _ _ => .ok [])⟩ "clusterrole" "editor").st.serviceAccountsInUse ∧
      (main ⟨(.ok []), .ok [aliceViaRole], (fun _ _ => .ok [])⟩ "clusterrole" "editor").st.usersInUse =
        (main ⟨(.ok []), .ok [aliceViaClusterRole], (fun _ _ => .ok [])⟩ "clusterrole" "editor").st.usersInUse ∧
      (main ⟨(.ok []), .ok [aliceViaRole], (fun _ _ => .ok [])⟩ "clusterrole" "editor").st.groupsInUse =
        (main ⟨(.ok []), .ok [aliceViaClusterRole], (fun _ _ => .ok [])⟩ "clusterrole" "editor").st.groupsInUse) ∧
    (∀ (pre post : List Binding) (b : Binding),
      b.RoleRef.Kind = "ClusterRole" → b.RoleRef.Name = "editor" →
      Line.binding b.Namespace b.Name ∈
        (main ⟨.ok (pre ++ b :: post), (.ok []), (fun _ _ => .ok [])⟩ "role" "editor").st.out) :=
  match_by_name_only "editor" [aliceViaRole] [aliceViaClusterRole] (.ok []) (fun _ _ => .ok [])
    (List.Forall₂.cons ⟨rfl, rfl, rfl⟩ List.Forall₂.nil)

end K8sRoleCheck
